import Mathlib

/-!
Shallow embedding of the Amberol build scripts
(build_cross_platform.py and build_cargo.py).

Each Python function is modelled as a pure Lean function from an
environment (the outside world the script observes: detected platform,
resolvable executables, existing paths, exit codes of spawned processes,
files found when walking the portable directory) to a trace of observable
events together with an `Except Int` result.  `Except.error c` models
`sys.exit(c)` aborting the whole process with exit code `c`; `Except.ok v`
models normal return of `v`.
-/

namespace CrossPlatform

/-- Observable events of the orchestration script: `print` calls, external
process invocations (`subprocess.run`), `shutil.rmtree`, `Path.mkdir`, and
writes of one file into the ZIP archive (file path, archive path). -/
inductive Event where
  | print (s : String)
  | runCmd (cmd : List String)
  | rmtree (path : String)
  | mkdirP (path : String)
  | zipWrite (filePath : String) (arcPath : String)
  deriving Repr, DecidableEq

abbrev Trace := List Event

/-- A computation of the script: the events it emits plus either a normal
result or the exit code of a `sys.exit`. -/
abbrev M (α : Type) := Trace × Except Int α

def pureM {α : Type} (a : α) : M α := ([], Except.ok a)

/-- Sequencing: if the first step called `sys.exit`, the continuation never
runs; otherwise its events follow the first step's events. -/
def bindM {α β : Type} (x : M α) (k : α → M β) : M β :=
  match x with
  | (t, Except.error c) => (t, Except.error c)
  | (t, Except.ok a) => (t ++ (k a).1, (k a).2)

/-- Prepend already-emitted events to a computation. -/
def withTrace {α : Type} (t : Trace) (x : M α) : M α := (t ++ x.1, x.2)

/-- The outside world as the orchestration script sees it. -/
structure Env where
  /-- `platform.system().lower()` -/
  platformSystem : String
  /-- `shutil.which name`: the resolved path, or `none` when not found. -/
  which : String → Option String
  /-- `Path(p).exists()` -/
  pathExists : String → Bool
  /-- the exit code `subprocess.run cmd` produces for a given command -/
  runResult : List String → Int
  /-- relative paths of the files found by `os.walk` under the
  portable-build directory, in walk order -/
  walkFiles : List String

/-- Parsed command-line arguments of build_cross_platform.py. -/
structure Args where
  target : String
  buildtype : String
  profile : String
  installPrefix : String
  clean : Bool
  install : Bool

/-- `run_command`: print the command, run it; when `check` holds and the
exit code is non-zero, `subprocess.run` raises `CalledProcessError`, the
handler prints the error and calls `sys.exit(1)`.  (The textual content of
the exception message is abstracted.) -/
def run_command (env : Env) (cmd : List String) (check : Bool) : M Int :=
  let code := env.runResult cmd
  let t : Trace := [Event.print ("Running: " ++ String.intercalate " " cmd),
                    Event.runCmd cmd]
  if check && code != 0 then
    (t ++ [Event.print ("Error running command: exit status " ++ toString code)],
     Except.error 1)
  else
    (t, Except.ok code)

/-- `detect_platform`. -/
def detect_platform (env : Env) : String :=
  let system := env.platformSystem
  if system == "windows" then "windows"
  else if system == "linux" then "linux"
  else if system == "freebsd" then "freebsd"
  else "unknown"

/-- The fixed dependency spec list of `check_dependencies_linux`. -/
def depsLinux : List (String × String) :=
  [("meson", "meson"), ("ninja", "ninja-build"), ("cargo", "rust")]

/-- The `missing` list collected by the loop in `check_dependencies_linux`:
every (executable, package) pair whose executable `shutil.which` cannot
resolve. -/
def missingDeps (which : String → Option String) (deps : List (String × String)) :
    List (String × String) :=
  deps.filter (fun cp => (which cp.1).isNone)

/-- The body of `check_dependencies_linux`, parametrised by the dependency
spec list it iterates over: collect all missing pairs, then either report
every one of them and return false, or return true. -/
def check_dependencies (which : String → Option String)
    (deps : List (String × String)) : Trace × Bool :=
  let missing := missingDeps which deps
  if missing.isEmpty then ([], true)
  else
    (Event.print "Missing dependencies:" ::
       missing.map (fun cp =>
         Event.print ("  " ++ cp.1 ++ " (install " ++ cp.2 ++ ")")) ++
       [Event.print "\nInstall missing dependencies and try again."],
     false)

/-- `check_dependencies_linux` with its hard-coded dependency list. -/
def check_dependencies_linux (env : Env) : Trace × Bool :=
  check_dependencies env.which depsLinux

/-- `check_dependencies_windows`. -/
def check_dependencies_windows (env : Env) : Trace × Bool :=
  if !env.pathExists "C:/msys64" then
    ([Event.print "MSYS2 not found at C:/msys64",
      Event.print "Please install MSYS2 from https://www.msys2.org/"], false)
  else ([], true)

def buildDirLinux : String := "_build_linux"

/-- The meson configure command assembled by `build_linux`. -/
def mesonSetupArgs (args : Args) : List String :=
  ["meson", "setup", buildDirLinux,
   "--buildtype=" ++ args.buildtype,
   "--prefix=" ++ args.installPrefix] ++
  (if args.profile == "development" then ["-Dprofile=development"] else [])

/-- The steps of `build_linux` after the meson configure call: compile,
optionally install, and report success. -/
def build_linux_after_setup (env : Env) (args : Args) : M Bool :=
  bindM (run_command env ["meson", "compile", "-C", buildDirLinux] true) fun _ =>
  bindM (if args.install then
           run_command env ["sudo", "meson", "install", "-C", buildDirLinux] true
         else pureM 0) fun _ =>
  ([Event.print "Linux build completed successfully!"], Except.ok true)

/-- `build_linux`. -/
def build_linux (env : Env) (args : Args) : M Bool :=
  withTrace [Event.print "Building for Linux..."] <|
  let deps := check_dependencies_linux env
  if !deps.2 then (deps.1, Except.ok false)
  else
    withTrace deps.1 <|
    withTrace (if args.clean && env.pathExists buildDirLinux then
                 [Event.print "Cleaning previous build...",
                  Event.rmtree buildDirLinux]
               else []) <|
    bindM (run_command env (mesonSetupArgs args) true) fun _ =>
    build_linux_after_setup env args

/-- The PowerShell command assembled by `build_windows`. -/
def psArgs (args : Args) : List String :=
  ["powershell", "-ExecutionPolicy", "Bypass", "-File", "build_windows.ps1",
   "-Profile", args.buildtype] ++
  (if args.clean then ["-Clean"] else []) ++
  (if args.install then ["-Install"] else [])

/-- `build_windows`. -/
def build_windows (env : Env) (args : Args) : M Bool :=
  withTrace [Event.print "Building for Windows..."] <|
  let deps := check_dependencies_windows env
  if !deps.2 then (deps.1, Except.ok false)
  else
    withTrace deps.1 <|
    if !env.pathExists "build_windows.ps1" then
      ([Event.print "build_windows.ps1 not found!"], Except.ok false)
    else
      bindM (run_command env (psArgs args) true) fun _ =>
      ([Event.print "Windows build completed successfully!"], Except.ok true)

/-- `create_flatpak`. -/
def create_flatpak (env : Env) (args : Args) : M Bool :=
  withTrace [Event.print "Creating Flatpak package..."] <|
  if !env.pathExists "io.bassi.Amberol.json" then
    ([Event.print "Flatpak manifest not found!"], Except.ok false)
  else
    withTrace (if args.clean && env.pathExists "_flatpak_build" then
                 [Event.rmtree "_flatpak_build"]
               else []) <|
    bindM (run_command env
      ["flatpak-builder", "--force-clean", "--user", "--install-deps-from=flathub",
       "_flatpak_build", "io.bassi.Amberol.json"] true) fun _ =>
    ([Event.print "Flatpak package created successfully!"], Except.ok true)

def portableDirName : String := "amberol-windows-portable"

/-- The ZIP-writing loop of `package_windows`: each file found under the
portable directory is written at its path relative to the directory's
parent (the parent of `amberol-windows-portable` is `.`, so the archive
path is `amberol-windows-portable/<relative path>`). -/
def archiveEntries (files : List String) : Trace :=
  files.map (fun f =>
    Event.zipWrite (portableDirName ++ "/" ++ f) (portableDirName ++ "/" ++ f))

/-- The tail of `package_windows`: create the installer when Inno Setup is
resolvable and the installer definition file exists, otherwise log a skip;
then report completion and return true. -/
def installer_step (env : Env) : M Bool :=
  match env.which "iscc" with
  | some inno =>
      withTrace [Event.print "Creating Windows installer..."] <|
      if env.pathExists "amberol-installer.iss" then
        bindM (run_command env [inno, "amberol-installer.iss"] true) fun _ =>
        ([Event.print "Windows packaging completed!"], Except.ok true)
      else
        ([Event.print "Installer script not found, skipping installer creation",
          Event.print "Windows packaging completed!"], Except.ok true)
  | none =>
      ([Event.print "Inno Setup not found, skipping installer creation",
        Event.print "Windows packaging completed!"], Except.ok true)

/-- `package_windows`. -/
def package_windows (env : Env) (_args : Args) : M Bool :=
  withTrace [Event.print "Packaging Windows distribution..."] <|
  if !env.pathExists portableDirName then
    ([Event.print "Windows portable build not found!",
      Event.print "Run build with Windows target first."], Except.ok false)
  else
    withTrace ([Event.mkdirP "dist",
                Event.print "Creating portable ZIP archive..."] ++
               archiveEntries env.walkFiles) <|
    installer_step env

/-- The first `main` dispatch block: `success &= build_linux(args)` when
the target is linux or all, starting from `success = True`. -/
def branch_linux (env : Env) (args : Args) : M Bool :=
  if args.target == "linux" || args.target == "all" then
    bindM (build_linux env args) fun b => pureM (true && b)
  else pureM true

/-- The second `main` dispatch block: build for Windows on a Windows host,
otherwise record the platform-mismatch failure. -/
def branch_windows (env : Env) (args : Args) (current_platform : String)
    (s : Bool) : M Bool :=
  if args.target == "windows" || args.target == "all" then
    if current_platform == "windows" then
      bindM (build_windows env args) fun b => pureM (s && b)
    else
      ([Event.print "Windows builds can only be created on Windows with MSYS2"],
       Except.ok false)
  else pureM s

/-- The third `main` dispatch block: create a flatpak on a Linux host,
otherwise record the platform-mismatch failure.  Note the guard: only the
exact target `flatpak` enters this block. -/
def branch_flatpak (env : Env) (args : Args) (current_platform : String)
    (s : Bool) : M Bool :=
  if args.target == "flatpak" then
    if current_platform == "linux" then
      bindM (create_flatpak env args) fun b => pureM (s && b)
    else
      ([Event.print "Flatpak packages can only be created on Linux"],
       Except.ok false)
  else pureM s

/-- The fourth `main` dispatch block: package the Windows distribution. -/
def branch_package (env : Env) (args : Args) (s : Bool) : M Bool :=
  if args.target == "package-windows" then
    bindM (package_windows env args) fun b => pureM (s && b)
  else pureM s

/-- The final block of `main`: print the aggregate banner and exit with
code 1 on failure. -/
def finish_run (success : Bool) : M Unit :=
  if success then
    ([Event.print "\nBuild process completed successfully!"], Except.ok ())
  else
    ([Event.print "\nBuild process failed!"], Except.error 1)

/-- `main` after the linux, windows and flatpak blocks. -/
def main_tail3 (env : Env) (args : Args) (s3 : Bool) : M Unit :=
  bindM (branch_package env args s3) finish_run

/-- `main` after the linux and windows blocks. -/
def main_tail2 (env : Env) (args : Args) (current_platform : String)
    (s2 : Bool) : M Unit :=
  bindM (branch_flatpak env args current_platform s2) (main_tail3 env args)

/-- `main` after the linux block. -/
def main_tail1 (env : Env) (args : Args) (current_platform : String)
    (s1 : Bool) : M Unit :=
  bindM (branch_windows env args current_platform s1)
    (main_tail2 env args current_platform)

/-- `main`: print platform and target, dispatch on the target while
accumulating `success` across the attempted sub-targets, then exit
non-zero on failure. -/
def mainRun (env : Env) (args : Args) : M Unit :=
  let current_platform := detect_platform env
  withTrace [Event.print ("Current platform: " ++ current_platform),
             Event.print ("Build target: " ++ args.target)] <|
  bindM (branch_linux env args) (main_tail1 env args current_platform)

/-- Whether an event is an external process invocation. -/
def isRunCmdB : Event → Bool
  | Event.runCmd _ => true
  | _ => false

/-- The archive path of a ZIP-write event, `none` for every other event. -/
def arcOf : Event → Option String
  | Event.zipWrite _ arc => some arc
  | _ => none

/-- Whether an event belongs to the flatpak sub-target: one of
`create_flatpak`'s prints, its build-directory removal, a
`flatpak-builder` invocation, or the flatpak platform-mismatch message. -/
def isFlatpakEvent : Event → Bool
  | Event.print "Creating Flatpak package..." => true
  | Event.print "Flatpak manifest not found!" => true
  | Event.print "Flatpak package created successfully!" => true
  | Event.print "Flatpak packages can only be created on Linux" => true
  | Event.rmtree "_flatpak_build" => true
  | Event.runCmd ("flatpak-builder" :: _) => true
  | _ => false

/-- Whether an event is a flatpak action on the file system or a process:
a `flatpak-builder` invocation or the removal of the flatpak build
directory. -/
def isFlatpakAction : Event → Bool
  | Event.rmtree "_flatpak_build" => true
  | Event.runCmd ("flatpak-builder" :: _) => true
  | _ => false

/-! Concrete environments and argument records used as test inputs. -/

/-- A Linux host where every external process exits with code 2 and nothing
is installed. -/
def envExit2 : Env := ⟨"linux", fun _ => none, fun _ => false, fun _ => 2, []⟩

/-- A Linux host with no portable-build directory. -/
def envNoPortable : Env := ⟨"linux", fun _ => none, fun _ => false, fun _ => 0, []⟩

/-- A fully provisioned Linux host: every tool resolves, every path exists,
every process exits 0, and the portable directory holds `a.txt` and
`sub/b.txt`. -/
def envAllGood : Env :=
  ⟨"linux", fun _ => some "/usr/bin/tool", fun _ => true, fun _ => 0,
   ["a.txt", "sub/b.txt"]⟩

/-- A Linux host with the portable directory present but no Inno Setup
tool on the path. -/
def envNoInno : Env :=
  ⟨"linux", fun _ => none, fun _ => true, fun _ => 0, ["a.txt"]⟩

/-- A FreeBSD host with everything provisioned. -/
def envFreeBSD : Env :=
  ⟨"freebsd", fun _ => some "/usr/bin/tool", fun _ => true, fun _ => 0,
   ["a.txt", "sub/b.txt"]⟩

def argsPW : Args := ⟨"package-windows", "release", "default", "/usr/local", false, false⟩

def argsWin : Args := ⟨"windows", "release", "default", "/usr/local", false, false⟩

def argsLinux : Args := ⟨"linux", "release", "default", "/usr/local", false, false⟩

def argsLinuxClean : Args := ⟨"linux", "release", "default", "/usr/local", true, false⟩

def argsAll : Args := ⟨"all", "release", "default", "/usr/local", false, false⟩

end CrossPlatform

namespace Cargo

/-- Observable events of build_cargo.py. -/
inductive CEvent where
  | print (s : String)
  | runCmd (cmd : List String)
  | copy (src : String) (dst : String)
  | chmod (path : String)
  deriving Repr, DecidableEq

/-- Parsed command-line arguments of build_cargo.py. -/
structure CargoArgs where
  cargoHome : String
  manifestPath : String
  targetDir : String
  profile : String
  output : String
  projectName : String

/-- The outside world as build_cargo.py sees it. -/
structure CargoEnv where
  /-- `result.returncode` of `subprocess.run` for a given command -/
  runResult : List String → Int
  /-- `os.name` -/
  osName : String
  /-- whether `shutil.copy2` raises -/
  copyRaises : Bool

/-- The base cargo invocation before the profile flag is considered. -/
def baseCargoCmd (a : CargoArgs) : List String :=
  ["cargo", "build",
   "--manifest-path", a.manifestPath,
   "--target-dir", a.targetDir]

/-- The full cargo command: `--release` is appended exactly when the
profile argument is the string `release`. -/
def cargoCmd (a : CargoArgs) : List String :=
  baseCargoCmd a ++ (if a.profile == "release" then ["--release"] else [])

/-- `main` of build_cargo.py as a trace-producing function. -/
def cargo_main (env : CargoEnv) (a : CargoArgs) : List CEvent × Except Int Unit :=
  let cmd := cargoCmd a
  let code := env.runResult cmd
  let t0 : List CEvent :=
    [CEvent.print ("Running: " ++ String.intercalate " " cmd), CEvent.runCmd cmd]
  if code != 0 then
    (t0 ++ [CEvent.print ("Cargo build failed with exit code " ++ toString code)],
     Except.error code)
  else
    let exeSuffix := if env.osName == "nt" then ".exe" else ""
    let srcExe := a.targetDir ++ "/" ++ a.profile ++ "/" ++ a.projectName ++ exeSuffix
    let t1 := t0 ++ [CEvent.print ("Copying " ++ srcExe ++ " to " ++ a.output)]
    if env.copyRaises then
      (t1 ++ [CEvent.print "Failed to copy executable"], Except.error 1)
    else
      (t1 ++ (CEvent.copy srcExe a.output ::
                (if env.osName == "nt" then [] else [CEvent.chmod a.output])) ++
         [CEvent.print "Build completed successfully!"],
       Except.ok ())

/-- Whether an event is a copy of the built executable. -/
def isCopyB : CEvent → Bool
  | CEvent.copy _ _ => true
  | _ => false

/-- An environment where the cargo build fails with exit code 101. -/
def cargoEnvFail : CargoEnv := ⟨fun _ => 101, "posix", false⟩

def cargoArgsDebug : CargoArgs :=
  ⟨"/cargo-home", "/src/Cargo.toml", "/target", "debug", "/out/amberol", "amberol"⟩

end Cargo

namespace CrossPlatform

/-! ### Shared helper lemmas -/

lemma bindM_fst_prefix {α β : Type} (x : M α) (k : α → M β) :
    ∃ r, (bindM x k).1 = x.1 ++ r := by
  rcases x with ⟨t, res⟩
  cases res with
  | error c => exact ⟨[], by simp [bindM]⟩
  | ok a => exact ⟨(k a).1, by simp [bindM]⟩

lemma bindM_error_snd {α β : Type} (x : M α) (k : α → M β) (c : Int)
    (h : x.2 = Except.error c) : (bindM x k).2 = Except.error c := by
  rcases x with ⟨t, res⟩
  cases res with
  | error d => simp at h; simp [bindM, h]
  | ok a => simp at h

lemma missingDeps_mem (which : String → Option String)
    (deps : List (String × String)) (cp : String × String) :
    cp ∈ missingDeps which deps ↔ cp ∈ deps ∧ which cp.1 = none := by
  simp [missingDeps, List.mem_filter, Option.isNone_iff_eq_none]

/-! ### C1 -/

/-- Claim C1 as stated is false on the code: with a process exiting with
code 2 under `check`, `run_command` aborts the run via `sys.exit 1`, so the
propagated exit code is 1, not the process's code 2. -/
theorem c1_counterexample :
    envExit2.runResult ["false"] = 2 ∧
    (run_command envExit2 ["false"] true).2 = Except.error 1 ∧
    (1 : Int) ≠ 2 :=
  ⟨rfl, rfl, by decide⟩

/-- Claim C1 amended: for every `check`-ed invocation whose process exits
non-zero, `run_command` immediately aborts the whole run (any continuation
is skipped) with exit code 1, regardless of the process's own exit code. -/
theorem c1_nonzero_aborts_with_one (env : Env) (cmd : List String)
    (h : env.runResult cmd ≠ 0) :
    (run_command env cmd true).2 = Except.error 1 ∧
    ∀ k : Int → M Bool, (bindM (run_command env cmd true) k).2 = Except.error 1 := by
  have hb : (env.runResult cmd != 0) = true := bne_iff_ne.mpr h
  constructor
  · simp [run_command, hb]
  · intro k
    simp [run_command, hb, bindM]

theorem c1_nonzero_aborts_with_one_witness :
    envExit2.runResult ["false"] ≠ 0 ∧
    (run_command envExit2 ["false"] true).2 = Except.error 1 :=
  ⟨by decide, (c1_nonzero_aborts_with_one envExit2 ["false"] (by decide)).1⟩

/-! ### C3 -/

/-- Claim C3: the dependency checker collects every unresolved
(executable, hint) pair, returns false exactly when at least one entry is
unresolvable, and prints every unresolved entry with its install hint. -/
theorem c3_checker_reports_all_missing (which : String → Option String)
    (deps : List (String × String)) :
    ((check_dependencies which deps).2 = false ↔
      ∃ cp ∈ deps, which cp.1 = none) ∧
    (∀ cp ∈ deps, which cp.1 = none →
      Event.print ("  " ++ cp.1 ++ " (install " ++ cp.2 ++ ")") ∈
        (check_dependencies which deps).1) := by
  rcases hM : missingDeps which deps with _ | ⟨a, t⟩
  · have hnone : ∀ cp ∈ deps, ¬ which cp.1 = none := by
      intro cp hcp hn
      have hmem : cp ∈ missingDeps which deps :=
        (missingDeps_mem which deps cp).mpr ⟨hcp, hn⟩
      rw [hM] at hmem
      exact absurd hmem (List.not_mem_nil cp)
    constructor
    · simp only [check_dependencies, hM, List.isEmpty_nil, if_pos]
      constructor
      · intro hfalse; exact absurd hfalse (by simp)
      · rintro ⟨cp, hcp, hn⟩; exact absurd hn (hnone cp hcp)
    · intro cp hcp hn; exact absurd hn (hnone cp hcp)
  · have ha : a ∈ deps ∧ which a.1 = none := by
      have : a ∈ missingDeps which deps := by rw [hM]; exact List.mem_cons_self a t
      exact (missingDeps_mem which deps a).mp this
    constructor
    · simp only [check_dependencies, hM, List.isEmpty_cons, if_neg]
      constructor
      · intro _; exact ⟨a, ha.1, ha.2⟩
      · intro _; rfl
    · intro cp hcp hn
      have hcpm : cp ∈ missingDeps which deps :=
        (missingDeps_mem which deps cp).mpr ⟨hcp, hn⟩
      rw [hM] at hcpm
      simp only [check_dependencies, hM, List.isEmpty_cons, if_neg]
      right
      refine List.mem_append_left _ ?_
      exact List.mem_map_of_mem _ hcpm

/-- A dependency spec list with two deliberately missing tools: both are
reported and the checker returns false. -/
theorem c3_checker_reports_all_missing_witness :
    (check_dependencies (fun _ => none) [("m1", "p1"), ("m2", "p2")]).2 = false ∧
    Event.print "  m1 (install p1)" ∈
      (check_dependencies (fun _ => none) [("m1", "p1"), ("m2", "p2")]).1 ∧
    Event.print "  m2 (install p2)" ∈
      (check_dependencies (fun _ => none) [("m1", "p1"), ("m2", "p2")]).1 :=
  ⟨(c3_checker_reports_all_missing (fun _ => none) [("m1", "p1"), ("m2", "p2")]).1.mpr
      ⟨("m1", "p1"), by simp, rfl⟩,
   (c3_checker_reports_all_missing (fun _ => none) [("m1", "p1"), ("m2", "p2")]).2
      ("m1", "p1") (by simp) rfl,
   (c3_checker_reports_all_missing (fun _ => none) [("m1", "p1"), ("m2", "p2")]).2
      ("m2", "p2") (by simp) rfl⟩

/-! ### C6 -/

/-- Claim C6: when the portable-build directory is missing, the packager
prints the missing-prerequisite messages and returns failure; nothing else
happens — no archive directory is created, no file is written into an
archive, and no external process runs. -/
theorem c6_package_missing_dir (env : Env) (args : Args)
    (h : env.pathExists portableDirName = false) :
    package_windows env args =
      ([Event.print "Packaging Windows distribution...",
        Event.print "Windows portable build not found!",
        Event.print "Run build with Windows target first."], Except.ok false) := by
  simp [package_windows, withTrace, h]

/-! ### Helper lemmas about run_command, installer_step and bindM traces -/

lemma run_command_no_zip (env : Env) (cmd : List String) (chk : Bool) :
    (run_command env cmd chk).1.filterMap arcOf = [] := by
  simp only [run_command]
  split <;> rfl

lemma run_command_mem_runCmd (env : Env) (cmd : List String) (chk : Bool) :
    Event.runCmd cmd ∈ (run_command env cmd chk).1 := by
  simp only [run_command]
  split <;> simp

lemma bindM_no_zip {α β : Type} (x : M α) (k : α → M β)
    (hx : x.1.filterMap arcOf = [])
    (hk : ∀ a, (k a).1.filterMap arcOf = []) :
    (bindM x k).1.filterMap arcOf = [] := by
  rcases x with ⟨t, res⟩
  cases res with
  | error c => simpa [bindM] using hx
  | ok a =>
      simp only [bindM, List.filterMap_append]
      simp only at hx
      simp [hx, hk]

lemma arcOf_archiveEntries (files : List String) :
    (archiveEntries files).filterMap arcOf =
      files.map (fun f => portableDirName ++ "/" ++ f) := by
  induction files with
  | nil => rfl
  | cons f fs ih => simpa [archiveEntries, List.filterMap_cons, arcOf] using ih

lemma installer_step_no_zip (env : Env) :
    (installer_step env).1.filterMap arcOf = [] := by
  unfold installer_step
  rcases env.which "iscc" with _ | inno
  · rfl
  · by_cases hiss : env.pathExists "amberol-installer.iss"
    · simp only [hiss, if_pos, withTrace]
      have : (bindM (run_command env [inno, "amberol-installer.iss"] true)
          (fun _ => ([Event.print "Windows packaging completed!"],
                      Except.ok true))).1.filterMap arcOf = [] :=
        bindM_no_zip _ _ (run_command_no_zip env _ true) (fun _ => rfl)
      simpa [arcOf] using this
    · simp only [hiss, if_neg, withTrace]
      rfl

theorem c6_package_missing_dir_witness :
    envNoPortable.pathExists portableDirName = false ∧
    package_windows envNoPortable argsPW =
      ([Event.print "Packaging Windows distribution...",
        Event.print "Windows portable build not found!",
        Event.print "Run build with Windows target first."], Except.ok false) :=
  ⟨rfl, c6_package_missing_dir envNoPortable argsPW rfl⟩

/-! ### C5 -/

/-- Claim C5: when the portable-build directory exists, the archive paths
written by the packager are exactly the walked files, in order, each placed
under `amberol-windows-portable/` (i.e. relative to the directory's
parent), so extraction yields one self-contained top-level folder. -/
theorem c5_archive_rooted_at_parent (env : Env) (args : Args)
    (h : env.pathExists portableDirName = true) :
    (package_windows env args).1.filterMap arcOf =
      env.walkFiles.map (fun f => portableDirName ++ "/" ++ f) := by
  simp only [package_windows, h, Bool.not_true, withTrace]
  simp [List.filterMap_cons, List.filterMap_append, arcOf,
        arcOf_archiveEntries, installer_step_no_zip]

/-- The packager on a directory holding `a.txt` and `sub/b.txt` produces
exactly the two expected archive entries. -/
theorem c5_archive_rooted_at_parent_witness :
    envAllGood.pathExists portableDirName = true ∧
    (package_windows envAllGood argsPW).1.filterMap arcOf =
      ["amberol-windows-portable/a.txt", "amberol-windows-portable/sub/b.txt"] :=
  ⟨rfl, (c5_archive_rooted_at_parent envAllGood argsPW rfl).trans rfl⟩

/-! ### C7 -/

lemma archiveEntries_no_runCmd (files : List String) :
    (archiveEntries files).all (fun e => !isRunCmdB e) = true := by
  simp [archiveEntries, List.all_eq_true, List.mem_map, isRunCmdB]

lemma package_windows_fst (env : Env) (args : Args)
    (h : env.pathExists portableDirName = true) :
    (package_windows env args).1 =
      Event.print "Packaging Windows distribution..." ::
        (([Event.mkdirP "dist", Event.print "Creating portable ZIP archive..."] ++
          archiveEntries env.walkFiles) ++ (installer_step env).1) := by
  simp [package_windows, h, withTrace]

lemma package_windows_snd (env : Env) (args : Args)
    (h : env.pathExists portableDirName = true) :
    (package_windows env args).2 = (installer_step env).2 := by
  simp [package_windows, h, withTrace]

/-- Claim C7: with the portable directory present, the installer tool is
invoked exactly when it resolves on the path and the installer definition
exists; if the tool or the definition is absent, a skip message is printed,
no external process runs at all, and the packager still returns success. -/
theorem c7_installer_best_effort (env : Env) (args : Args)
    (h : env.pathExists portableDirName = true) :
    (∀ p, env.which "iscc" = some p →
        env.pathExists "amberol-installer.iss" = true →
        Event.runCmd [p, "amberol-installer.iss"] ∈ (package_windows env args).1) ∧
    (env.which "iscc" = none →
        (package_windows env args).2 = Except.ok true ∧
        Event.print "Inno Setup not found, skipping installer creation" ∈
          (package_windows env args).1 ∧
        (package_windows env args).1.all (fun e => !isRunCmdB e) = true) ∧
    (∀ p, env.which "iscc" = some p →
        env.pathExists "amberol-installer.iss" = false →
        (package_windows env args).2 = Except.ok true ∧
        Event.print "Installer script not found, skipping installer creation" ∈
          (package_windows env args).1 ∧
        (package_windows env args).1.all (fun e => !isRunCmdB e) = true) := by
  refine ⟨?_, ?_, ?_⟩
  · intro p hw hiss
    have hmem : Event.runCmd [p, "amberol-installer.iss"] ∈ (installer_step env).1 := by
      simp only [installer_step, hw, hiss, if_pos, withTrace]
      obtain ⟨r, hr⟩ := bindM_fst_prefix
        (run_command env [p, "amberol-installer.iss"] true)
        (fun _ => ([Event.print "Windows packaging completed!"], Except.ok true))
      simp only [hr]
      simp [run_command_mem_runCmd env [p, "amberol-installer.iss"] true]
    rw [package_windows_fst env args h]
    exact List.mem_cons_of_mem _ (List.mem_append_right _ hmem)
  · intro hw
    have hinst : installer_step env =
        ([Event.print "Inno Setup not found, skipping installer creation",
          Event.print "Windows packaging completed!"], Except.ok true) := by
      simp [installer_step, hw]
    refine ⟨?_, ?_, ?_⟩
    · rw [package_windows_snd env args h, hinst]
    · rw [package_windows_fst env args h, hinst]; simp
    · rw [package_windows_fst env args h, hinst]
      simp [List.all_append, isRunCmdB, archiveEntries_no_runCmd,
            List.all_eq_true, archiveEntries, List.mem_map]
  · intro p hw hiss
    have hinst : installer_step env =
        ([Event.print "Creating Windows installer...",
          Event.print "Installer script not found, skipping installer creation",
          Event.print "Windows packaging completed!"], Except.ok true) := by
      simp [installer_step, hw, hiss, withTrace]
    refine ⟨?_, ?_, ?_⟩
    · rw [package_windows_snd env args h, hinst]
    · rw [package_windows_fst env args h, hinst]; simp
    · rw [package_windows_fst env args h, hinst]
      simp [List.all_append, isRunCmdB, archiveEntries_no_runCmd,
            List.all_eq_true, archiveEntries, List.mem_map]

theorem c7_installer_best_effort_witness :
    envNoInno.pathExists portableDirName = true ∧
    envNoInno.which "iscc" = none ∧
    (package_windows envNoInno argsPW).2 = Except.ok true ∧
    Event.print "Inno Setup not found, skipping installer creation" ∈
      (package_windows envNoInno argsPW).1 :=
  ⟨rfl, rfl,
   ((c7_installer_best_effort envNoInno argsPW rfl).2.1 rfl).1,
   ((c7_installer_best_effort envNoInno argsPW rfl).2.1 rfl).2.1⟩

/-! ### C4 -/

/-- Claim C4: requesting target=windows on a non-windows host fails with
the platform-mismatch message, exits non-zero, and invokes no external
process at all. -/
theorem c4_windows_mismatch_no_process (env : Env) (args : Args)
    (ht : args.target = "windows") (hp : detect_platform env ≠ "windows") :
    (mainRun env args).2 = Except.error 1 ∧
    (mainRun env args).1.all (fun e => !isRunCmdB e) = true ∧
    Event.print "Windows builds can only be created on Windows with MSYS2" ∈
      (mainRun env args).1 := by
  have hbp : (detect_platform env == "windows") = false :=
    beq_eq_false_iff_ne.mpr hp
  have hmain : mainRun env args =
      ([Event.print ("Current platform: " ++ detect_platform env),
        Event.print "Build target: windows",
        Event.print "Windows builds can only be created on Windows with MSYS2",
        Event.print "\nBuild process failed!"], Except.error 1) := by
    simp [mainRun, branch_linux, main_tail1, branch_windows, main_tail2,
          branch_flatpak, main_tail3, branch_package, finish_run,
          withTrace, bindM, pureM, ht, hbp]
  refine ⟨by rw [hmain], by rw [hmain]; rfl, by rw [hmain]; simp⟩

theorem c4_windows_mismatch_no_process_witness :
    argsWin.target = "windows" ∧ detect_platform envAllGood ≠ "windows" ∧
    (mainRun envAllGood argsWin).2 = Except.error 1 ∧
    (mainRun envAllGood argsWin).1.all (fun e => !isRunCmdB e) = true :=
  ⟨rfl, by decide,
   (c4_windows_mismatch_no_process envAllGood argsWin rfl (by decide)).1,
   (c4_windows_mismatch_no_process envAllGood argsWin rfl (by decide)).2.1⟩

/-! ### C8 -/

lemma run_command_fst_prefix (env : Env) (cmd : List String) (chk : Bool) :
    ∃ r, (run_command env cmd chk).1 =
      [Event.print ("Running: " ++ String.intercalate " " cmd),
       Event.runCmd cmd] ++ r := by
  simp only [run_command]
  split
  · exact ⟨_, rfl⟩
  · exact ⟨[], by simp⟩

lemma bindM_run_head {β : Type} (env : Env) (cmd : List String)
    (k : Int → M β) :
    ∃ r, (bindM (run_command env cmd true) k).1 =
      [Event.print ("Running: " ++ String.intercalate " " cmd),
       Event.runCmd cmd] ++ r := by
  obtain ⟨r1, h1⟩ := bindM_fst_prefix (run_command env cmd true) k
  obtain ⟨r0, h0⟩ := run_command_fst_prefix env cmd true
  exact ⟨r0 ++ r1, by rw [h1, h0, List.append_assoc]⟩

/-- Claim C8: with clean requested, an existing build directory, and the
dependency check passing, the whole prior build directory is removed
strictly before the meson configure command is invoked; nothing before the
removal is a process invocation. -/
theorem c8_clean_removes_before_configure (env : Env) (args : Args)
    (hc : args.clean = true) (hd : env.pathExists buildDirLinux = true)
    (h1 : (env.which "meson").isNone = false)
    (h2 : (env.which "ninja").isNone = false)
    (h3 : (env.which "cargo").isNone = false) :
    ∃ rest, (build_linux env args).1 =
      [Event.print "Building for Linux...",
       Event.print "Cleaning previous build...",
       Event.rmtree buildDirLinux,
       Event.print ("Running: " ++ String.intercalate " " (mesonSetupArgs args)),
       Event.runCmd (mesonSetupArgs args)] ++ rest := by
  have hdeps : check_dependencies_linux env = ([], true) := by
    simp [check_dependencies_linux, check_dependencies, missingDeps, depsLinux,
          h1, h2, h3]
  have hbl : (build_linux env args).1 =
      [Event.print "Building for Linux...",
       Event.print "Cleaning previous build...",
       Event.rmtree buildDirLinux] ++
      (bindM (run_command env (mesonSetupArgs args) true)
        (fun _ => build_linux_after_setup env args)).1 := by
    simp [build_linux, hdeps, hc, hd, withTrace]
  obtain ⟨r, hr⟩ := bindM_run_head env (mesonSetupArgs args)
    (fun _ => build_linux_after_setup env args)
  exact ⟨r, by rw [hbl, hr]; simp⟩

theorem c8_clean_removes_before_configure_witness :
    argsLinuxClean.clean = true ∧
    envAllGood.pathExists buildDirLinux = true ∧
    ∃ rest, (build_linux envAllGood argsLinuxClean).1 =
      [Event.print "Building for Linux...",
       Event.print "Cleaning previous build...",
       Event.rmtree buildDirLinux,
       Event.print ("Running: " ++
         String.intercalate " " (mesonSetupArgs argsLinuxClean)),
       Event.runCmd (mesonSetupArgs argsLinuxClean)] ++ rest :=
  ⟨rfl, rfl,
   c8_clean_removes_before_configure envAllGood argsLinuxClean
     rfl rfl rfl rfl rfl⟩

/-! ### C9 -/

lemma bindM_pureM {α β : Type} (a : α) (k : α → M β) :
    bindM (pureM a) k = k a := rfl

lemma bindM_assoc {α β γ : Type} (x : M α) (k : α → M β) (f : β → M γ) :
    bindM (bindM x k) f = bindM x (fun a => bindM (k a) f) := by
  rcases x with ⟨t, res⟩
  cases res with
  | error c => rfl
  | ok a =>
      rcases hk : k a with ⟨t2, res2⟩
      cases res2 <;> simp [bindM, hk, List.append_assoc]

lemma build_linux_fst_head (env : Env) (args : Args) :
    ∃ r, (build_linux env args).1 = Event.print "Building for Linux..." :: r :=
  ⟨_, rfl⟩

lemma package_windows_fst_head (env : Env) (args : Args) :
    ∃ r, (package_windows env args).1 =
      Event.print "Packaging Windows distribution..." :: r :=
  ⟨_, rfl⟩

/-- Claim C9: for every detected platform, target linux (or all) attempts
the native pipeline and target package-windows attempts the distribution
packager; platform detection never gates these two sub-targets. -/
theorem c9_linux_and_package_not_gated (env : Env) (args : Args) :
    ((args.target = "linux" ∨ args.target = "all") →
      Event.print "Building for Linux..." ∈ (mainRun env args).1) ∧
    (args.target = "package-windows" →
      Event.print "Packaging Windows distribution..." ∈ (mainRun env args).1) := by
  constructor
  · intro h
    have hcond : (args.target == "linux" || args.target == "all") = true := by
      rcases h with h | h <;> simp [h]
    have hm : (mainRun env args).1 =
        [Event.print ("Current platform: " ++ detect_platform env),
         Event.print ("Build target: " ++ args.target)] ++
        (bindM (branch_linux env args)
          (main_tail1 env args (detect_platform env))).1 := by
      simp [mainRun, withTrace]
    obtain ⟨rA, hA⟩ := bindM_fst_prefix (branch_linux env args)
      (main_tail1 env args (detect_platform env))
    have hbr : (branch_linux env args).1 =
        (bindM (build_linux env args) (fun b => pureM (true && b))).1 := by
      simp [branch_linux, hcond]
    obtain ⟨rB, hB⟩ := bindM_fst_prefix (build_linux env args)
      (fun b => pureM (true && b))
    obtain ⟨rh, hh⟩ := build_linux_fst_head env args
    rw [hm, hA, hbr, hB, hh]
    simp
  · intro h
    have e1 : branch_linux env args = pureM true := by simp [branch_linux, h]
    have e2 : ∀ s, branch_windows env args (detect_platform env) s = pureM s := by
      intro s; simp [branch_windows, h]
    have e3 : ∀ s, branch_flatpak env args (detect_platform env) s = pureM s := by
      intro s; simp [branch_flatpak, h]
    have e4 : ∀ s, branch_package env args s =
        bindM (package_windows env args) (fun b => pureM (s && b)) := by
      intro s; simp [branch_package, h]
    have hm : mainRun env args =
        withTrace [Event.print ("Current platform: " ++ detect_platform env),
                   Event.print ("Build target: " ++ args.target)]
          (bindM (package_windows env args)
            (fun b => bindM (pureM (true && b)) finish_run)) := by
      simp only [mainRun]
      rw [e1, bindM_pureM]
      simp only [main_tail1]
      rw [e2, bindM_pureM]
      simp only [main_tail2]
      rw [e3, bindM_pureM]
      simp only [main_tail3]
      rw [e4]
      rw [bindM_assoc]
    rw [hm]
    simp only [withTrace]
    obtain ⟨rA, hA⟩ := bindM_fst_prefix (package_windows env args)
      (fun b => bindM (pureM (true && b)) finish_run)
    rw [hA]
    obtain ⟨rh, hh⟩ := package_windows_fst_head env args
    rw [hh]
    simp

/-! ### C2 -/

lemma isFlatpakAction_print (s : String) :
    isFlatpakAction (Event.print s) = false := rfl

lemma isFlatpakAction_mkdirP (p : String) :
    isFlatpakAction (Event.mkdirP p) = false := rfl

lemma isFlatpakAction_zipWrite (a b : String) :
    isFlatpakAction (Event.zipWrite a b) = false := rfl

lemma check_dependencies_no_flatpak (which : String → Option String)
    (deps : List (String × String)) :
    (check_dependencies which deps).1.all (fun e => !isFlatpakAction e) = true := by
  unfold check_dependencies
  by_cases hM : (missingDeps which deps).isEmpty
  · simp [hM]
  · simp only [hM, Bool.false_eq_true, if_false, List.all_eq_true]
    intro e he
    rcases List.mem_cons.mp he with rfl | he2
    · rfl
    · rcases List.mem_append.mp he2 with he3 | he4
      · rcases List.mem_map.mp he3 with ⟨cp, _, rfl⟩
        rfl
      · rcases List.mem_singleton.mp he4 with rfl
        rfl

lemma run_command_no_flatpak (env : Env) (cmd : List String) (chk : Bool)
    (hhead : isFlatpakAction (Event.runCmd cmd) = false) :
    (run_command env cmd chk).1.all (fun e => !isFlatpakAction e) = true := by
  simp only [run_command]
  split <;> simp [isFlatpakAction_print, hhead]

lemma bindM_all {α β : Type} (p : Event → Bool) (x : M α) (k : α → M β)
    (hx : x.1.all p = true) (hk : ∀ a, (k a).1.all p = true) :
    (bindM x k).1.all p = true := by
  rcases x with ⟨t, res⟩
  cases res with
  | error c => simpa [bindM] using hx
  | ok a =>
      simp only at hx
      simp [bindM, List.all_append, hx, hk]

lemma build_linux_after_setup_no_flatpak (env : Env) (args : Args) :
    (build_linux_after_setup env args).1.all (fun e => !isFlatpakAction e) = true := by
  unfold build_linux_after_setup
  apply bindM_all
  · exact run_command_no_flatpak env _ true rfl
  · intro a
    apply bindM_all
    · by_cases hi : args.install
      · simp only [hi, if_pos]
        exact run_command_no_flatpak env _ true rfl
      · simp only [hi, Bool.false_eq_true, if_false]
        rfl
    · intro b
      rfl

lemma build_linux_no_flatpak (env : Env) (args : Args) :
    (build_linux env args).1.all (fun e => !isFlatpakAction e) = true := by
  have h1 : (check_dependencies_linux env).1.all (fun e => !isFlatpakAction e) = true :=
    check_dependencies_no_flatpak env.which depsLinux
  by_cases hd2 : (check_dependencies_linux env).2
  · have h2 : (if args.clean && env.pathExists buildDirLinux then
        [Event.print "Cleaning previous build...", Event.rmtree buildDirLinux]
      else []).all (fun e => !isFlatpakAction e) = true := by
      by_cases hc : args.clean && env.pathExists buildDirLinux
      · simp only [hc, if_pos]
        decide
      · simp [hc]
    have h3 : (bindM (run_command env (mesonSetupArgs args) true)
        (fun _ => build_linux_after_setup env args)).1.all
          (fun e => !isFlatpakAction e) = true :=
      bindM_all _ _ _ (run_command_no_flatpak env _ true rfl)
        (fun _ => build_linux_after_setup_no_flatpak env args)
    simp only [build_linux, withTrace, hd2, Bool.not_true, Bool.false_eq_true,
               if_false]
    simp [List.all_append, List.all_cons, isFlatpakAction_print, h1, h2, h3]
    rintro x _ _ hx
    rcases hx with rfl | rfl
    · rfl
    · decide
  · have hd2f : (check_dependencies_linux env).2 = false := by
      simpa using hd2
    simp only [build_linux, withTrace, hd2f, Bool.not_false, if_pos]
    simp [List.all_append, List.all_cons, isFlatpakAction_print, h1]

/-- Claim C2 fails on the code: on a fully provisioned linux host with
target=all, no flatpak-related event of any kind appears in the trace —
the flatpak sub-target (and in particular its mismatch handling) is never
attempted, because the dispatch guards that block on the exact target
`flatpak` only. -/
theorem c2_counterexample :
    argsAll.target = "all" ∧ detect_platform envAllGood = "linux" ∧
    (mainRun envAllGood argsAll).1.all (fun e => !isFlatpakEvent e) = true ∧
    (mainRun envAllGood argsAll).2 = Except.error 1 := by
  refine ⟨rfl, rfl, by decide, rfl⟩

/-- Claim C2 amended: target=all on a linux host attempts the native
pipeline and the windows sub-target's mismatch handling, but never the
flatpak sub-target (that block only fires for target=flatpak); the
aggregate outcome is the AND over the attempted sub-targets, and since the
windows mismatch always fails on linux, the run always exits with code 1
even when every invoked process succeeds. -/
theorem c2_all_on_linux (env : Env) (args : Args)
    (ht : args.target = "all") (hp : env.platformSystem = "linux")
    (hw : ∀ c, (env.which c).isNone = false)
    (hr : ∀ cmd, env.runResult cmd = 0)
    (hx : ∀ q, env.pathExists q = true) :
    (mainRun env args).2 = Except.error 1 ∧
    Event.print "Building for Linux..." ∈ (mainRun env args).1 ∧
    Event.print "Windows builds can only be created on Windows with MSYS2" ∈
      (mainRun env args).1 ∧
    (mainRun env args).1.all (fun e => !isFlatpakAction e) = true := by
  have hcp : detect_platform env = "linux" := by simp [detect_platform, hp]
  have hdeps : check_dependencies_linux env = ([], true) := by
    simp [check_dependencies_linux, check_dependencies, missingDeps, depsLinux, hw]
  have hbl2 : (build_linux env args).2 = Except.ok true := by
    by_cases hclean : args.clean <;> by_cases hinstall : args.install <;>
      simp [build_linux, build_linux_after_setup, hdeps, withTrace, bindM,
            pureM, run_command, hr, hx, hclean, hinstall]
  have hbranch : branch_linux env args = ((build_linux env args).1, Except.ok true) := by
    have hcond : (args.target == "linux" || args.target == "all") = true := by
      simp [ht]
    rcases hblx : build_linux env args with ⟨t, res⟩
    rw [hblx] at hbl2
    simp only at hbl2
    subst hbl2
    simp [branch_linux, hcond, hblx, bindM, pureM]
  have hbw : branch_windows env args "linux" true =
      ([Event.print "Windows builds can only be created on Windows with MSYS2"],
       Except.ok false) := by
    simp [branch_windows, ht]
  have hbf : branch_flatpak env args "linux" false = pureM false := by
    simp [branch_flatpak, ht]
  have hbp4 : branch_package env args false = pureM false := by
    simp [branch_package, ht]
  have htail : main_tail1 env args "linux" true =
      ([Event.print "Windows builds can only be created on Windows with MSYS2",
        Event.print "\nBuild process failed!"], Except.error 1) := by
    simp [main_tail1, hbw, main_tail2, hbf, bindM_pureM, main_tail3, hbp4,
          finish_run, bindM, pureM]
  have hmain : mainRun env args =
      ([Event.print ("Current platform: " ++ "linux"),
        Event.print ("Build target: " ++ args.target)] ++
       ((build_linux env args).1 ++
        [Event.print "Windows builds can only be created on Windows with MSYS2",
         Event.print "\nBuild process failed!"]), Except.error 1) := by
    simp only [mainRun, withTrace]
    rw [hcp, hbranch]
    simp only [bindM]
    rw [htail]
  refine ⟨by rw [hmain], ?_, by rw [hmain]; simp, ?_⟩
  · obtain ⟨r, hh⟩ := build_linux_fst_head env args
    rw [hmain, hh]
    simp
  · rw [hmain]
    simp only [List.all_cons, List.all_append, isFlatpakAction_print,
               Bool.not_false, Bool.true_and, List.all_nil, Bool.and_true]
    exact build_linux_no_flatpak env args

theorem c2_all_on_linux_witness :
    argsAll.target = "all" ∧ envAllGood.platformSystem = "linux" ∧
    (mainRun envAllGood argsAll).2 = Except.error 1 ∧
    Event.print "Windows builds can only be created on Windows with MSYS2" ∈
      (mainRun envAllGood argsAll).1 :=
  ⟨rfl, rfl,
   (c2_all_on_linux envAllGood argsAll rfl rfl (fun _ => rfl) (fun _ => rfl)
     (fun _ => rfl)).1,
   (c2_all_on_linux envAllGood argsAll rfl rfl (fun _ => rfl) (fun _ => rfl)
     (fun _ => rfl)).2.2.1⟩

theorem c9_linux_and_package_not_gated_witness :
    detect_platform envFreeBSD = "freebsd" ∧
    Event.print "Building for Linux..." ∈ (mainRun envFreeBSD argsLinux).1 ∧
    Event.print "Packaging Windows distribution..." ∈
      (mainRun envFreeBSD argsPW).1 :=
  ⟨rfl,
   (c9_linux_and_package_not_gated envFreeBSD argsLinux).1 (Or.inl rfl),
   (c9_linux_and_package_not_gated envFreeBSD argsPW).2 rfl⟩

end CrossPlatform

namespace Cargo

/-! ### C10 -/

/-- Claim C10: if the cargo build exits with a non-zero code c, the script
exits with exactly c and never copies the executable to the output path;
and the release flag is appended to the cargo command exactly when the
profile argument equals release. -/
theorem c10_cargo_exit_propagated_no_copy (env : CargoEnv) (a : CargoArgs) :
    (env.runResult (cargoCmd a) ≠ 0 →
      (cargo_main env a).2 = Except.error (env.runResult (cargoCmd a)) ∧
      (cargo_main env a).1.all (fun e => !isCopyB e) = true) ∧
    (a.profile = "release" → cargoCmd a = baseCargoCmd a ++ ["--release"]) ∧
    (a.profile ≠ "release" → cargoCmd a = baseCargoCmd a) := by
  refine ⟨?_, ?_, ?_⟩
  · intro h
    have hb : (env.runResult (cargoCmd a) != 0) = true := bne_iff_ne.mpr h
    constructor
    · simp [cargo_main, hb]
    · simp [cargo_main, hb, isCopyB]
  · intro h
    simp [cargoCmd, h]
  · intro h
    simp [cargoCmd, h]

theorem c10_cargo_exit_propagated_no_copy_witness :
    cargoEnvFail.runResult (cargoCmd cargoArgsDebug) ≠ 0 ∧
    cargoArgsDebug.profile ≠ "release" ∧
    (cargo_main cargoEnvFail cargoArgsDebug).2 = Except.error 101 ∧
    (cargo_main cargoEnvFail cargoArgsDebug).1.all (fun e => !isCopyB e) = true ∧
    cargoCmd cargoArgsDebug = baseCargoCmd cargoArgsDebug :=
  ⟨by decide, by decide,
   ((c10_cargo_exit_propagated_no_copy cargoEnvFail cargoArgsDebug).1 (by decide)).1,
   ((c10_cargo_exit_propagated_no_copy cargoEnvFail cargoArgsDebug).1 (by decide)).2,
   (c10_cargo_exit_propagated_no_copy cargoEnvFail cargoArgsDebug).2.2 (by decide)⟩

end Cargo
